import Mathlib

/-!
# Verification of the liga-muertos backend error-handling core

Shallow embedding of `src/back/src/utils/error/mod.rs`,
`src/back/src/utils/error/validation.rs` and `src/back/src/utils/mod.rs`
(Rust), together with proofs of the specification claims about them.

Rust `String`/`&str` values are modelled as Lean `String`; the Rust
`str::len()` (UTF-8 byte length) is modelled by `String.utf8ByteSize`,
while `str::chars()` is modelled by `String.data` (the list of Unicode
scalar values).
-/

namespace LigaMuertos

/-- A minimal JSON value model, sufficient for the shapes produced by
`serde_json::json!` in `ApiError::details`. -/
inductive Json where
  | str : String → Json
  | obj : List (String × Json) → Json

/-- The `ApiError` enum from `src/back/src/utils/error/mod.rs`, with one
constructor per variant and the same payload fields. -/
inductive ApiError where
  | Database (message : String)
  | Validation (message : String) (field : Option String)
  | Authentication (message : String)
  | Authorization (message : String)
  | NotFound (resource : String) (id : String)
  | Conflict (message : String)
  | RateLimit (message : String)
  | ExternalService (service : String) (message : String)
  | Internal (message : String)
  | BadRequest (message : String)
  | JsonParsing (message : String)
  | Tournament (message : String) (tournament_id : Option String)
  | User (message : String) (user_id : Option String)
deriving DecidableEq

/-- Rust `ApiError::status_code` (mod.rs lines 120-138); HTTP status codes are
modelled by their numeric value. -/
def ApiError.status_code : ApiError → Nat
  | .Database _ => 500
  | .Validation _ _ => 400
  | .Authentication _ => 401
  | .Authorization _ => 403
  | .NotFound _ _ => 404
  | .Conflict _ => 409
  | .RateLimit _ => 429
  | .ExternalService _ _ => 503
  | .Internal _ => 500
  | .BadRequest _ => 400
  | .JsonParsing _ => 400
  | .Tournament _ _ => 400
  | .User _ _ => 400

/-- Rust `ApiError::error_code` (mod.rs lines 141-157). -/
def ApiError.error_code : ApiError → String
  | .Database _ => "DATABASE_ERROR"
  | .Validation _ _ => "VALIDATION_ERROR"
  | .Authentication _ => "AUTHENTICATION_ERROR"
  | .Authorization _ => "AUTHORIZATION_ERROR"
  | .NotFound _ _ => "NOT_FOUND"
  | .Conflict _ => "CONFLICT"
  | .RateLimit _ => "RATE_LIMIT_EXCEEDED"
  | .ExternalService _ _ => "EXTERNAL_SERVICE_ERROR"
  | .Internal _ => "INTERNAL_SERVER_ERROR"
  | .BadRequest _ => "BAD_REQUEST"
  | .JsonParsing _ => "JSON_PARSING_ERROR"
  | .Tournament _ _ => "TOURNAMENT_ERROR"
  | .User _ _ => "USER_ERROR"

/-- Rust `ApiError::details` (mod.rs lines 160-178). -/
def ApiError.details : ApiError → Option Json
  | .Validation _ field => field.map (fun f => Json.obj [("field", Json.str f)])
  | .NotFound resource id => some (Json.obj [("resource", Json.str resource), ("id", Json.str id)])
  | .ExternalService service _ => some (Json.obj [("service", Json.str service)])
  | .Tournament _ tournament_id =>
      tournament_id.map (fun id => Json.obj [("tournament_id", Json.str id)])
  | .User _ user_id => user_id.map (fun id => Json.obj [("user_id", Json.str id)])
  | _ => none

/-- Rust `ApiError::should_log_as_error` (mod.rs lines 181-187). -/
def ApiError.should_log_as_error : ApiError → Bool
  | .Database _ => true
  | .Internal _ => true
  | .ExternalService _ _ => true
  | _ => false

/-- The `Display` rendering of `ApiError`, generated by the `thiserror`
crate from the per-variant format attributes on each variant (mod.rs lines 54-116). -/
def ApiError.to_string : ApiError → String
  | .Database m => "Database error: " ++ m
  | .Validation m _ => "Validation error: " ++ m
  | .Authentication m => "Authentication error: " ++ m
  | .Authorization m => "Authorization error: " ++ m
  | .NotFound r i => "Resource not found: " ++ r ++ " with id " ++ i
  | .Conflict m => "Conflict: " ++ m
  | .RateLimit m => "Rate limit exceeded: " ++ m
  | .ExternalService s m => "External service error: " ++ s ++ " - " ++ m
  | .Internal m => "Internal server error: " ++ m
  | .BadRequest m => "Bad request: " ++ m
  | .JsonParsing m => "JSON parsing error: " ++ m
  | .Tournament m _ => "Tournament error: " ++ m
  | .User m _ => "User error: " ++ m

/-- The `ApiErrorResponse` wire-body struct (mod.rs lines 14-26). -/
structure ApiErrorResponse where
  success : Bool
  message : String
  error_code : String
  details : Option Json
  request_id : Option String

/-- Rust `ApiErrorResponse::new` (mod.rs lines 30-38). -/
def ApiErrorResponse.new (message error_code : String) : ApiErrorResponse :=
  { success := false, message := message, error_code := error_code,
    details := none, request_id := none }

/-- Rust `ApiErrorResponse::with_details` (mod.rs lines 41-44). -/
def ApiErrorResponse.with_details (r : ApiErrorResponse) (d : Json) : ApiErrorResponse :=
  { r with details := some d }

/-- The rendered HTTP response: transport status plus JSON body. -/
structure HttpResponseModel where
  status : Nat
  body : ApiErrorResponse

/-- Rust `ResponseError::error_response` for `ApiError` (mod.rs lines 190-205):
build the body from `to_string()` and `error_code()`, attach `details()`
when present, and serialize with the status from `status_code()`. -/
def ApiError.error_response (e : ApiError) : HttpResponseModel :=
  let base := ApiErrorResponse.new e.to_string e.error_code
  let withDetails :=
    match e.details with
    | some d => base.with_details d
    | none => base
  { status := e.status_code, body := withDetails }

/-- Substring search on lists of characters: the Rust method
`str::contains(&str)` restricted to the character list of the haystack. -/
def strContainsAux (h n : List Char) : Bool :=
  match h with
  | [] => n.isEmpty
  | c :: t => n.isPrefixOf (c :: t) || strContainsAux t n

/-- The Rust method `str::contains(&str)`: case-sensitive substring test. -/
def strContains (s sub : String) : Bool :=
  strContainsAux s.data sub.data

/-- The proposition "`sub` occurs as a contiguous substring of `s`". -/
def ContainsSub (s sub : String) : Prop :=
  ∃ pre post, s.data = pre ++ sub.data ++ post

/-- Rust `impl From<surrealdb::Error> for ApiError` (mod.rs lines 213-239),
as a function of the textual description of the foreign failure
(`error.to_string()`), which is all the Rust code inspects. -/
def from_surrealdb (error_string : String) : ApiError :=
  if strContains error_string "Connection" || strContains error_string "timeout" then
    .Database "Database connection error"
  else if strContains error_string "duplicate" || strContains error_string "already exists" then
    .Conflict "Resource already exists"
  else if strContains error_string "not found" || strContains error_string "No record" then
    .NotFound "record" "unknown"
  else
    .Database error_string

/-- The `ValidationError` struct from `validation.rs` lines 11-20. -/
structure ValidationError where
  message : String
  field : Option String
  code : String
deriving DecidableEq

/-- Rust `ValidationError::with_field` (validation.rs lines 33-39). -/
def ValidationError.with_field (message field code : String) : ValidationError :=
  { message := message, field := some field, code := code }

/-- The `ValidationErrors` collection (validation.rs lines 43-47). -/
structure ValidationErrors where
  errors : List ValidationError
deriving DecidableEq

/-- Rust `ValidationErrors::new` (validation.rs lines 51-53). -/
def ValidationErrors.new : ValidationErrors :=
  { errors := [] }

/-- Rust `ValidationErrors::add` (validation.rs lines 56-58): `Vec::push`,
i.e. append at the end. -/
def ValidationErrors.add (es : ValidationErrors) (e : ValidationError) : ValidationErrors :=
  { errors := es.errors ++ [e] }

/-- Rust `ValidationErrors::has_errors` (validation.rs lines 66-68). -/
def ValidationErrors.has_errors (es : ValidationErrors) : Bool :=
  !es.errors.isEmpty

/-- The `ValidationBuilder` struct (validation.rs lines 225-227). -/
structure ValidationBuilder where
  errors : ValidationErrors

/-- Rust `ValidationBuilder::new` (validation.rs lines 231-235). -/
def ValidationBuilder.new : ValidationBuilder :=
  { errors := ValidationErrors.new }

/-- Rust `ValidationBuilder::validate` (validation.rs lines 238-246): run the
closure and record its error, if any. -/
def ValidationBuilder.validate (b : ValidationBuilder)
    (validation : Unit → Except ValidationError Unit) : ValidationBuilder :=
  match validation () with
  | .error e => { errors := b.errors.add e }
  | .ok _ => b

/-- Rust `ValidationBuilder::build` (validation.rs lines 249-255). -/
def ValidationBuilder.build (b : ValidationBuilder) (success_value : α) :
    Except ValidationErrors α :=
  if b.errors.has_errors then .error b.errors else .ok success_value

/-- Rust `ValidationBuilder::build_unit` (validation.rs lines 258-260). -/
def ValidationBuilder.build_unit (b : ValidationBuilder) : Except ValidationErrors Unit :=
  b.build ()

/-- Calling `validate()` once per closure, in order, starting from
`ValidationBuilder::new()` — the usage pattern of the `validate!` macro
(validation.rs lines 271-281). -/
def runValidations (vs : List (Unit → Except ValidationError Unit)) : ValidationBuilder :=
  vs.foldl ValidationBuilder.validate ValidationBuilder.new

/-- Specification vocabulary: the errors of the failing closures, in call
order. -/
def failuresOf (vs : List (Unit → Except ValidationError Unit)) : List ValidationError :=
  vs.filterMap fun f =>
    match f () with
    | .error e => some e
    | .ok _ => none

/-- Rust `validation::is_valid_email` from `src/back/src/utils/mod.rs` lines
60-67. Rust's `len()` is the UTF-8 byte count, `starts_with('@')` /
`ends_with('@')` look at the first / last character, and
`char::is_ascii` is `(c as u32) <= 0x7F`. -/
def is_valid_email (email : String) : Bool :=
  email.data.contains '@' &&
  decide (email.utf8ByteSize > 3) &&
  decide (email.utf8ByteSize < 255) &&
  !(email.data.head? == some '@') &&
  !(email.data.getLast? == some '@') &&
  email.data.all (fun c => decide (c.toNat ≤ 127))

/-- Rust `validation::is_valid_username` from `src/back/src/utils/mod.rs` lines
70-92, parametrized by the character predicate `isAlnum` standing for
the Rust method `char::is_alphanumeric` (a Unicode property whose table is not
reproduced here; every theorem below holds for an arbitrary `isAlnum`). -/
def is_valid_username (isAlnum : Char → Bool) (username : String) : Bool :=
  if username.utf8ByteSize < 3 ∨ username.utf8ByteSize > 50 then
    false
  else if !((username.data.head?.map isAlnum).getD false) then
    false
  else
    username.data.all (fun c => isAlnum c || c == '-' || c == '_')

namespace validators

/-- Rust `validators::length` (validation.rs lines 118-129); `value.len()` is
the UTF-8 byte count. -/
def length (value : String) (min max : Nat) (field : String) :
    Except ValidationError Unit :=
  let len := value.utf8ByteSize
  if len < min ∨ len > max then
    .error (ValidationError.with_field
      (field ++ " must be between " ++ Nat.repr min ++ " and " ++ Nat.repr max ++ " characters")
      field "LENGTH")
  else
    .ok ()

/-- Rust `validators::email` (validation.rs lines 132-142). -/
def email (value field : String) : Except ValidationError Unit :=
  if is_valid_email value then
    .ok ()
  else
    .error (ValidationError.with_field "Invalid email format" field "INVALID_EMAIL")

/-- Rust `validators::username` (validation.rs lines 145-155), parametrized by
the alphanumeric character predicate like `is_valid_username`. -/
def username (isAlnum : Char → Bool) (value field : String) :
    Except ValidationError Unit :=
  if is_valid_username isAlnum value then
    .ok ()
  else
    .error (ValidationError.with_field
      "Username must be 3-50 characters, start with alphanumeric, and contain only alphanumeric, hyphens, or underscores"
      field "INVALID_USERNAME")

/-- Rust `validators::uuid_format` (validation.rs lines 184-195). -/
def uuid_format (value field : String) : Except ValidationError Unit :=
  if value.utf8ByteSize = 36 ∧ (value.data.filter (fun c => c == '-')).length = 4 then
    .ok ()
  else
    .error (ValidationError.with_field "Invalid UUID format" field "INVALID_UUID")

end validators

/-- Modelled from the words of the spec, for comparison with `is_valid_email`:
"contains exactly one meaningful `@` not at the start or end, has overall
length in `(3, 255)`, and every character is within the printable ASCII
range". -/
def spec_is_valid_email (s : String) : Prop :=
  (s.data.filter (fun c => c == '@')).length = 1 ∧
  s.data.head? ≠ some '@' ∧
  s.data.getLast? ≠ some '@' ∧
  3 < s.length ∧ s.length < 255 ∧
  ∀ c ∈ s.data, 32 ≤ c.toNat ∧ c.toNat ≤ 126

instance {ε α : Type} [DecidableEq ε] [DecidableEq α] : DecidableEq (Except ε α) := fun a b =>
  match a, b with
  | .ok x, .ok y => if h : x = y then .isTrue (by rw [h]) else .isFalse (by simp [h])
  | .error x, .error y => if h : x = y then .isTrue (by rw [h]) else .isFalse (by simp [h])
  | .ok _, .error _ => .isFalse (by simp)
  | .error _, .ok _ => .isFalse (by simp)

/-- C1: for every `ApiError` value, `status_code()` and `error_code()` depend
only on the variant tag (the payloads are universally quantified) and return
exactly the thirteen pairs of the table in the spec. -/
theorem status_code_error_code_table :
    (∀ m, (ApiError.Database m).status_code = 500 ∧
      (ApiError.Database m).error_code = "DATABASE_ERROR") ∧
    (∀ m f, (ApiError.Validation m f).status_code = 400 ∧
      (ApiError.Validation m f).error_code = "VALIDATION_ERROR") ∧
    (∀ m, (ApiError.Authentication m).status_code = 401 ∧
      (ApiError.Authentication m).error_code = "AUTHENTICATION_ERROR") ∧
    (∀ m, (ApiError.Authorization m).status_code = 403 ∧
      (ApiError.Authorization m).error_code = "AUTHORIZATION_ERROR") ∧
    (∀ r i, (ApiError.NotFound r i).status_code = 404 ∧
      (ApiError.NotFound r i).error_code = "NOT_FOUND") ∧
    (∀ m, (ApiError.Conflict m).status_code = 409 ∧
      (ApiError.Conflict m).error_code = "CONFLICT") ∧
    (∀ m, (ApiError.RateLimit m).status_code = 429 ∧
      (ApiError.RateLimit m).error_code = "RATE_LIMIT_EXCEEDED") ∧
    (∀ s m, (ApiError.ExternalService s m).status_code = 503 ∧
      (ApiError.ExternalService s m).error_code = "EXTERNAL_SERVICE_ERROR") ∧
    (∀ m, (ApiError.Internal m).status_code = 500 ∧
      (ApiError.Internal m).error_code = "INTERNAL_SERVER_ERROR") ∧
    (∀ m, (ApiError.BadRequest m).status_code = 400 ∧
      (ApiError.BadRequest m).error_code = "BAD_REQUEST") ∧
    (∀ m, (ApiError.JsonParsing m).status_code = 400 ∧
      (ApiError.JsonParsing m).error_code = "JSON_PARSING_ERROR") ∧
    (∀ m t, (ApiError.Tournament m t).status_code = 400 ∧
      (ApiError.Tournament m t).error_code = "TOURNAMENT_ERROR") ∧
    (∀ m u, (ApiError.User m u).status_code = 400 ∧
      (ApiError.User m u).error_code = "USER_ERROR") :=
  ⟨fun _ => ⟨rfl, rfl⟩, fun _ _ => ⟨rfl, rfl⟩, fun _ => ⟨rfl, rfl⟩, fun _ => ⟨rfl, rfl⟩,
   fun _ _ => ⟨rfl, rfl⟩, fun _ => ⟨rfl, rfl⟩, fun _ => ⟨rfl, rfl⟩, fun _ _ => ⟨rfl, rfl⟩,
   fun _ => ⟨rfl, rfl⟩, fun _ => ⟨rfl, rfl⟩, fun _ => ⟨rfl, rfl⟩, fun _ _ => ⟨rfl, rfl⟩,
   fun _ _ => ⟨rfl, rfl⟩⟩

/-- C6: `should_log_as_error()` returns true exactly for the variants
`Database`, `Internal` and `ExternalService`, and false for the other ten
variants, regardless of payload. -/
theorem should_log_as_error_exact :
    (∀ m, (ApiError.Database m).should_log_as_error = true) ∧
    (∀ m, (ApiError.Internal m).should_log_as_error = true) ∧
    (∀ s m, (ApiError.ExternalService s m).should_log_as_error = true) ∧
    (∀ m f, (ApiError.Validation m f).should_log_as_error = false) ∧
    (∀ m, (ApiError.Authentication m).should_log_as_error = false) ∧
    (∀ m, (ApiError.Authorization m).should_log_as_error = false) ∧
    (∀ r i, (ApiError.NotFound r i).should_log_as_error = false) ∧
    (∀ m, (ApiError.Conflict m).should_log_as_error = false) ∧
    (∀ m, (ApiError.RateLimit m).should_log_as_error = false) ∧
    (∀ m, (ApiError.BadRequest m).should_log_as_error = false) ∧
    (∀ m, (ApiError.JsonParsing m).should_log_as_error = false) ∧
    (∀ m t, (ApiError.Tournament m t).should_log_as_error = false) ∧
    (∀ m u, (ApiError.User m u).should_log_as_error = false) :=
  ⟨fun _ => rfl, fun _ => rfl, fun _ _ => rfl, fun _ _ => rfl, fun _ => rfl, fun _ => rfl,
   fun _ _ => rfl, fun _ => rfl, fun _ => rfl, fun _ => rfl, fun _ => rfl, fun _ _ => rfl,
   fun _ _ => rfl⟩

/-- C7: for every `ApiError`, the rendered wire body has `success = false`,
`message` equal to the `to_string()` rendering, `error_code` equal to
`error_code()`, `details` equal to `details()`, and `request_id` always
null; the transport status equals `status_code()`. -/
theorem error_response_shape (e : ApiError) :
    e.error_response.status = e.status_code ∧
    e.error_response.body.success = false ∧
    e.error_response.body.message = e.to_string ∧
    e.error_response.body.error_code = e.error_code ∧
    e.error_response.body.details = e.details ∧
    e.error_response.body.request_id = none := by
  cases h : e.details <;>
    simp [ApiError.error_response, ApiErrorResponse.new, ApiErrorResponse.with_details, h]

/-- C8: `details()` is a pure function of the `ApiError` value returning,
per variant: for `Validation`, the field name when a field is set and
nothing otherwise; for `NotFound`, `{resource, id}`; for `ExternalService`,
`{service}`; for `Tournament` / `User`, the id when present and nothing
otherwise; and nothing for every other variant. -/
theorem details_table :
    (∀ m f, (ApiError.Validation m f).details =
      f.map (fun x => Json.obj [("field", Json.str x)])) ∧
    (∀ r i, (ApiError.NotFound r i).details =
      some (Json.obj [("resource", Json.str r), ("id", Json.str i)])) ∧
    (∀ s m, (ApiError.ExternalService s m).details =
      some (Json.obj [("service", Json.str s)])) ∧
    (∀ m t, (ApiError.Tournament m t).details =
      t.map (fun x => Json.obj [("tournament_id", Json.str x)])) ∧
    (∀ m u, (ApiError.User m u).details =
      u.map (fun x => Json.obj [("user_id", Json.str x)])) ∧
    (∀ m, (ApiError.Database m).details = none) ∧
    (∀ m, (ApiError.Authentication m).details = none) ∧
    (∀ m, (ApiError.Authorization m).details = none) ∧
    (∀ m, (ApiError.Conflict m).details = none) ∧
    (∀ m, (ApiError.RateLimit m).details = none) ∧
    (∀ m, (ApiError.Internal m).details = none) ∧
    (∀ m, (ApiError.BadRequest m).details = none) ∧
    (∀ m, (ApiError.JsonParsing m).details = none) :=
  ⟨fun _ _ => rfl, fun _ _ => rfl, fun _ _ => rfl, fun _ _ => rfl, fun _ _ => rfl,
   fun _ => rfl, fun _ => rfl, fun _ => rfl, fun _ => rfl, fun _ => rfl, fun _ => rfl,
   fun _ => rfl, fun _ => rfl⟩

lemma foldl_validate_errors (vs : List (Unit → Except ValidationError Unit))
    (acc : List ValidationError) :
    (vs.foldl ValidationBuilder.validate ⟨⟨acc⟩⟩).errors.errors = acc ++ failuresOf vs := by
  induction vs generalizing acc with
  | nil => simp [failuresOf]
  | cons f t ih =>
    simp only [List.foldl_cons, failuresOf, List.filterMap_cons]
    cases hf : f () with
    | error e =>
      simp [ValidationBuilder.validate, hf, ValidationErrors.add, ih, failuresOf]
    | ok u =>
      simp [ValidationBuilder.validate, hf, ih, failuresOf]

/-- C2: running any ordered sequence of validation closures through
`validate()` inspects every closure (the accumulated list is a `filterMap`
over the whole sequence, so no earlier failure short-circuits a later one),
collecting exactly the errors of the failing closures in call order;
`build(success_value)` returns the success value when no closure failed and
otherwise the complete ordered error list, and `build_unit()` does the same
ending in unit. -/
theorem validation_builder_accumulates (vs : List (Unit → Except ValidationError Unit))
    {α : Type} (v : α) :
    (runValidations vs).errors.errors = failuresOf vs ∧
    ((runValidations vs).build v =
      if (failuresOf vs).isEmpty then .ok v else .error ⟨failuresOf vs⟩) ∧
    ((runValidations vs).build_unit =
      if (failuresOf vs).isEmpty then .ok () else .error ⟨failuresOf vs⟩) := by
  have h : (runValidations vs).errors.errors = failuresOf vs := by
    simpa [runValidations, ValidationBuilder.new, ValidationErrors.new] using
      foldl_validate_errors vs []
  have h2 : (runValidations vs).errors = ValidationErrors.mk (failuresOf vs) := by
    rw [← h]
  have hb : ∀ {β : Type} (w : β), (runValidations vs).build w =
      if (failuresOf vs).isEmpty then .ok w else .error ⟨failuresOf vs⟩ := by
    intro β w
    rw [ValidationBuilder.build, h2]
    cases hne : (failuresOf vs).isEmpty <;>
      simp [ValidationErrors.has_errors, hne]
  exact ⟨h, hb v, by rw [ValidationBuilder.build_unit]; exact hb ()⟩

lemma isPrefixOf_eq_true_iff (n h : List Char) :
    n.isPrefixOf h = true ↔ ∃ t, h = n ++ t := by
  induction n generalizing h with
  | nil => simp [List.isPrefixOf]
  | cons c cs ih =>
    cases h with
    | nil => simp [List.isPrefixOf]
    | cons d ds =>
      rw [show (c :: cs).isPrefixOf (d :: ds) = ((c == d) && cs.isPrefixOf ds) from rfl]
      simp only [Bool.and_eq_true, beq_iff_eq, ih, List.cons_append, List.cons_eq_cons]
      constructor
      · rintro ⟨rfl, t, rfl⟩
        exact ⟨t, rfl, rfl⟩
      · rintro ⟨t, rfl, rfl⟩
        exact ⟨rfl, t, rfl⟩

lemma strContainsAux_iff (h n : List Char) :
    strContainsAux h n = true ↔ ∃ pre post, h = pre ++ n ++ post := by
  induction h with
  | nil =>
    simp only [strContainsAux, List.isEmpty_iff]
    constructor
    · rintro rfl
      exact ⟨[], [], rfl⟩
    · rintro ⟨pre, post, hp⟩
      rcases List.append_eq_nil.mp (List.append_eq_nil.mp hp.symm).1 with ⟨-, h2⟩
      exact h2
  | cons c t ih =>
    simp only [strContainsAux, Bool.or_eq_true, isPrefixOf_eq_true_iff, ih]
    constructor
    · rintro (⟨u, hu⟩ | ⟨pre, post, hp⟩)
      · exact ⟨[], u, by simpa using hu⟩
      · exact ⟨c :: pre, post, by simp [hp]⟩
    · rintro ⟨pre, post, hp⟩
      cases pre with
      | nil => exact Or.inl ⟨post, by simpa using hp⟩
      | cons p ps =>
        right
        simp only [List.cons_append] at hp
        exact ⟨ps, post, (List.cons_eq_cons.mp hp).2⟩

lemma strContains_iff (s sub : String) :
    strContains s sub = true ↔ ContainsSub s sub := by
  rw [strContains, ContainsSub]
  exact strContainsAux_iff s.data sub.data

/-- C5: conversion of a data-store failure into `ApiError` is decided by
case-sensitive substring matching on the textual description of the failure,
with the stated precedence: `"Connection"`/`"timeout"` give
`Database{message: "Database connection error"}`; otherwise
`"duplicate"`/`"already exists"` give `Conflict{message: "Resource already
exists"}`; otherwise `"not found"`/`"No record"` give `NotFound{resource:
"record", id: "unknown"}`; otherwise the original text is preserved
verbatim in a `Database` message. -/
theorem from_surrealdb_cases (s : String) :
    ((ContainsSub s "Connection" ∨ ContainsSub s "timeout") →
      from_surrealdb s = .Database "Database connection error") ∧
    (¬(ContainsSub s "Connection" ∨ ContainsSub s "timeout") →
      (ContainsSub s "duplicate" ∨ ContainsSub s "already exists") →
      from_surrealdb s = .Conflict "Resource already exists") ∧
    (¬(ContainsSub s "Connection" ∨ ContainsSub s "timeout") →
      ¬(ContainsSub s "duplicate" ∨ ContainsSub s "already exists") →
      (ContainsSub s "not found" ∨ ContainsSub s "No record") →
      from_surrealdb s = .NotFound "record" "unknown") ∧
    (¬(ContainsSub s "Connection" ∨ ContainsSub s "timeout") →
      ¬(ContainsSub s "duplicate" ∨ ContainsSub s "already exists") →
      ¬(ContainsSub s "not found" ∨ ContainsSub s "No record") →
      from_surrealdb s = .Database s) := by
  simp only [← strContains_iff, ← Bool.or_eq_true, Bool.or_eq_true, not_or,
    Bool.not_eq_true]
  refine ⟨?_, ?_, ?_, ?_⟩
  · rintro (h1 | h1) <;> simp [from_surrealdb, h1]
  · rintro ⟨h1, h2⟩ (h3 | h3) <;> simp [from_surrealdb, h1, h2, h3]
  · rintro ⟨h1, h2⟩ ⟨h3, h4⟩ (h5 | h5) <;> simp [from_surrealdb, h1, h2, h3, h4, h5]
  · rintro ⟨h1, h2⟩ ⟨h3, h4⟩ ⟨h5, h6⟩
    simp [from_surrealdb, h1, h2, h3, h4, h5, h6]

/-- Witness for C5: the conversion theorem applied at concrete examples
from the spec, a text containing `"timeout"` and a text containing
`"duplicate"` but no earlier keyword. -/
theorem from_surrealdb_cases_witness :
    from_surrealdb "connection timeout" = .Database "Database connection error" ∧
    from_surrealdb "duplicate key" = .Conflict "Resource already exists" :=
  ⟨(from_surrealdb_cases "connection timeout").1
    (Or.inr ((strContains_iff "connection timeout" "timeout").mp (by decide))),
   (from_surrealdb_cases "duplicate key").2.1
    (fun hc => by
      rcases hc with hc | hc <;>
        exact absurd ((strContains_iff _ _).mpr hc) (by decide))
    (Or.inl ((strContains_iff "duplicate key" "duplicate").mp (by decide)))⟩

/-- Counterexample for C3 as stated: the one-character, two-byte string
`"é"` with bounds `[1, 1]`. Its character count 1 lies inside the inclusive
interval, so the claim predicts success, but the code measures
`value.len()` (bytes) and fails. -/
theorem length_char_count_counterexample :
    ¬ (validators.length "é" 1 1 "f" = .ok () ↔
      (1 ≤ ("é" : String).length ∧ ("é" : String).length ≤ 1)) := by
  intro hiff
  have h := hiff.mpr (by decide)
  have h2 : validators.length "é" 1 1 "f" =
      .error (ValidationError.with_field "f must be between 1 and 1 characters" "f" "LENGTH") :=
    rfl
  rw [h2] at h
  exact Except.noConfusion h

/-- C3 (amended): `length(value, min, max, field)` succeeds exactly when
the UTF-8 byte count of `value` (Rust `len()`, not the character count)
lies in the inclusive interval `[min, max]`, and otherwise fails with code
`LENGTH` on the given field; the boundary examples `length("abc", 3, 3,
"f")` succeeds and `length("ab", 3, 3, "f")` fails with `LENGTH`. -/
theorem length_ok_iff (v : String) (min max : Nat) (f : String) :
    (validators.length v min max f = .ok () ↔
      (min ≤ v.utf8ByteSize ∧ v.utf8ByteSize ≤ max)) ∧
    (validators.length v min max f = .ok () ∨
      ∃ e, validators.length v min max f = .error e ∧
        e.code = "LENGTH" ∧ e.field = some f) ∧
    validators.length "abc" 3 3 "f" = .ok () ∧
    (∃ e, validators.length "ab" 3 3 "f" = .error e ∧ e.code = "LENGTH") := by
  refine ⟨?_, ?_, rfl, ⟨_, rfl, rfl⟩⟩
  · rw [validators.length]
    split
    next hc => exact iff_of_false (by simp) (by omega)
    next hc => exact iff_of_true rfl (by omega)
  · rw [validators.length]
    split
    · right
      exact ⟨_, rfl, rfl, rfl⟩
    · left
      rfl

lemma is_valid_email_iff (v : String) :
    is_valid_email v = true ↔
      (v.data.contains '@' = true ∧ 3 < v.utf8ByteSize ∧ v.utf8ByteSize < 255 ∧
        v.data.head? ≠ some '@' ∧ v.data.getLast? ≠ some '@' ∧
        ∀ c ∈ v.data, c.toNat ≤ 127) := by
  rw [is_valid_email]
  simp only [Bool.and_eq_true, decide_eq_true_eq, List.all_eq_true,
    Bool.not_eq_true', beq_eq_false_iff_ne, gt_iff_lt, and_assoc]

/-- Counterexample for C4 as stated: the string `"a@@\x01"` contains two
`'@'` characters (not exactly one) and a non-printable ASCII control
character, yet the code accepts it: `is_valid_email` only requires *some*
`'@'`, no `'@'` at either end, length in `(3, 255)` and `char::is_ascii`
(which admits control characters). -/
theorem email_exactly_one_at_counterexample :
    ¬ (validators.email "a@@\x01" "f" = .ok () ↔ spec_is_valid_email "a@@\x01") := by
  intro hiff
  have h2 := hiff.mp rfl
  obtain ⟨h2a, -⟩ := h2
  have h3 : (("a@@\x01" : String).data.filter (fun c => c == '@')).length = 2 := rfl
  rw [h3] at h2a
  exact absurd h2a (by decide)

/-- C4 (amended): `email(value, field)` succeeds exactly when `value`
contains at least one `'@'` (not necessarily exactly one), neither starts
nor ends with `'@'`, has UTF-8 byte length strictly between 3 and 255, and
every character is ASCII (code point at most 127, printable or not);
otherwise it fails with code `INVALID_EMAIL`. In particular `"a@b.co"` is
valid, while `"@b.co"` and `"a@"` are invalid. -/
theorem email_ok_iff (v f : String) :
    (validators.email v f = .ok () ↔
      (v.data.contains '@' = true ∧ 3 < v.utf8ByteSize ∧ v.utf8ByteSize < 255 ∧
        v.data.head? ≠ some '@' ∧ v.data.getLast? ≠ some '@' ∧
        ∀ c ∈ v.data, c.toNat ≤ 127)) ∧
    (validators.email v f = .ok () ∨
      ∃ e, validators.email v f = .error e ∧
        e.code = "INVALID_EMAIL" ∧ e.field = some f) ∧
    validators.email "a@b.co" "f" = .ok () ∧
    (∃ e, validators.email "@b.co" "f" = .error e ∧ e.code = "INVALID_EMAIL") ∧
    (∃ e, validators.email "a@" "f" = .error e ∧ e.code = "INVALID_EMAIL") := by
  refine ⟨?_, ?_, rfl, ⟨_, rfl, rfl⟩, ⟨_, rfl, rfl⟩⟩
  · rw [validators.email]
    split
    next hc => exact iff_of_true rfl ((is_valid_email_iff v).mp hc)
    next hc => exact iff_of_false (by simp) (fun hR => hc ((is_valid_email_iff v).mpr hR))
  · rw [validators.email]
    split
    · left
      rfl
    · right
      exact ⟨_, rfl, rfl, rfl⟩

lemma is_valid_username_iff (isAlnum : Char → Bool) (v : String) :
    is_valid_username isAlnum v = true ↔
      (3 ≤ v.utf8ByteSize ∧ v.utf8ByteSize ≤ 50 ∧
        (∃ c, v.data.head? = some c ∧ isAlnum c = true) ∧
        ∀ c ∈ v.data, isAlnum c = true ∨ c = '-' ∨ c = '_') := by
  rw [is_valid_username]
  by_cases h1 : v.utf8ByteSize < 3 ∨ v.utf8ByteSize > 50
  · rw [if_pos h1]
    refine iff_of_false (by simp) ?_
    rintro ⟨ha, hb, -, -⟩
    omega
  · rw [if_neg h1]
    by_cases h2 : (v.data.head?.map isAlnum).getD false = true
    · rw [if_neg (by simp [h2])]
      simp only [List.all_eq_true, Bool.or_eq_true, beq_iff_eq]
      constructor
      · intro hall
        refine ⟨by omega, by omega, ?_, fun c hc => or_assoc.mp (hall c hc)⟩
        cases ho : v.data.head? with
        | none => rw [ho] at h2; exact absurd h2 (by simp)
        | some c =>
          rw [ho] at h2
          exact ⟨c, rfl, by simpa using h2⟩
      · rintro ⟨-, -, -, hall⟩
        exact fun c hc => or_assoc.mpr (hall c hc)
    · rw [if_pos (by simp [Bool.not_eq_true] at h2; simp [h2])]
      refine iff_of_false (by simp) ?_
      rintro ⟨-, -, ⟨c, hc, hac⟩, -⟩
      rw [hc] at h2
      exact h2 (by simpa using hac)

/-- C9: `username(value, field)` succeeds exactly when the length of the
value (Rust `len()`, the UTF-8 byte count) is in the inclusive range `[3, 50]`,
its first character is alphanumeric, and every character is alphanumeric,
`'-'`, or `'_'`; otherwise it fails with code `INVALID_USERNAME`. The
alphanumeric character class (the Unicode method `char::is_alphanumeric`) is
abstracted as the parameter `isAlnum`, and the equivalence holds for every
such predicate. -/
theorem username_ok_iff (isAlnum : Char → Bool) (v f : String) :
    (validators.username isAlnum v f = .ok () ↔
      (3 ≤ v.utf8ByteSize ∧ v.utf8ByteSize ≤ 50 ∧
        (∃ c, v.data.head? = some c ∧ isAlnum c = true) ∧
        ∀ c ∈ v.data, isAlnum c = true ∨ c = '-' ∨ c = '_')) ∧
    (validators.username isAlnum v f = .ok () ∨
      ∃ e, validators.username isAlnum v f = .error e ∧
        e.code = "INVALID_USERNAME" ∧ e.field = some f) := by
  constructor
  · rw [validators.username]
    split
    next hc => exact iff_of_true rfl ((is_valid_username_iff isAlnum v).mp hc)
    next hc =>
      exact iff_of_false (by simp) (fun hR => hc ((is_valid_username_iff isAlnum v).mpr hR))
  · rw [validators.username]
    split
    · left
      rfl
    · right
      exact ⟨_, rfl, rfl, rfl⟩

/-- C10: `uuid_format(value, field)` succeeds exactly when the
UTF-8 byte length of the value is 36 and it contains exactly four `'-'` characters,
failing with code `INVALID_UUID` otherwise; in particular it accepts a
36-character four-hyphen string whose remaining characters are `'z'` (not
hexadecimal digits), so it is not a full UUID syntax check. -/
theorem uuid_format_ok_iff (v f : String) :
    (validators.uuid_format v f = .ok () ↔
      (v.utf8ByteSize = 36 ∧ (v.data.filter (fun c => c == '-')).length = 4)) ∧
    (validators.uuid_format v f = .ok () ∨
      ∃ e, validators.uuid_format v f = .error e ∧
        e.code = "INVALID_UUID" ∧ e.field = some f) ∧
    validators.uuid_format "zzzzzzzz-zzzz-zzzz-zzzz-zzzzzzzzzzzz" "f" = .ok () := by
  refine ⟨?_, ?_, rfl⟩
  · rw [validators.uuid_format]
    split
    next hc => exact iff_of_true rfl hc
    next hc => exact iff_of_false (by simp) hc
  · rw [validators.uuid_format]
    split
    · left
      rfl
    · right
      exact ⟨_, rfl, rfl, rfl⟩

end LigaMuertos
